import Mathlib

/-!
Shallow embedding of the SmartInventorySystem order-fulfillment core and the
inventory service, translated from the Python sources
(src/order_service/main.py, src/order_service/schemas.py,
src/inventory_service/main.py, src/inventory_service/schemas.py).

Remote collaborators (product service, inventory service, notification
service) are modelled as oracles packaged in an environment record; float
quantities and prices are modelled as rationals; database tables are lists of
rows; side effects (inventory-adjust calls, notification posts, inventory
checks issued) are collected in an explicit trace.
-/

namespace OrderSvc

/-- Row of the orders table (src/order_service/models.py, class Order).
The created-at column is a server default never consulted by the workflow and
is omitted; updated-at is a timestamp modelled as a natural number. -/
structure OrderRow where
  id : Nat
  customer_name : String
  customer_email : String
  status : String
  updated_at : Option Nat
deriving Repr, DecidableEq

/-- Row of the order-items table (src/order_service/models.py, class
OrderItem). The surrogate primary key is never consulted and is omitted. -/
structure OrderItemRow where
  order_id : Nat
  product_id : Nat
  quantity : Rat
  unit_price : Rat
deriving Repr, DecidableEq

/-- The order service database: the orders and order-items tables. -/
structure OrderDb where
  orders : List OrderRow
  items : List OrderItemRow
deriving Repr, DecidableEq

/-- Outcome of the GET inventory/product_id call made by check_inventory:
a 200 response carrying a quantity, a non-200 status, or a raised
communication error. -/
inductive InvGetResp where
  | ok (quantity : Rat)
  | badStatus
  | connError
deriving Repr, DecidableEq

/-- Oracle for the remote collaborators of the order service: the inventory
GET response per product id, and whether an inventory adjust call for a given
product id and quantity returns HTTP 200. -/
structure Env where
  inv : Nat → InvGetResp
  adjustOk : Nat → Rat → Bool

/-- check_inventory (src/order_service/main.py, lines 65-78): returns whether
the on-hand quantity covers the requested quantity; a non-200 status or a
raised error yields false. -/
def check_inventory (env : Env) (product_id : Nat) (quantity : Rat) : Bool :=
  match env.inv product_id with
  | .ok q => decide (q ≥ quantity)
  | .badStatus => false
  | .connError => false

/-- Body of the POST inventory adjust request issued by update_inventory. -/
structure AdjustCall where
  product_id : Nat
  amount : Rat
  allow_negative : Bool
deriving Repr, DecidableEq

/-- update_inventory (src/order_service/main.py, lines 80-99): posts an
adjustment with amount equal to minus the quantity and allow_negative false;
the first component is the call issued, the second the returned boolean
(true on HTTP 200, false otherwise). -/
def update_inventory (env : Env) (product_id : Nat) (quantity : Rat) :
    AdjustCall × Bool :=
  ({ product_id := product_id, amount := -quantity, allow_negative := false },
   env.adjustOk product_id quantity)

/-- Payload of a notification posted by notify_order_status
(src/order_service/main.py, lines 101-113). -/
structure Notification where
  order_id : Nat
  status : String
  recipient : String
deriving Repr, DecidableEq

/-- Side effects of one run of the fulfillment procedure: the inventory
checks issued (product id and quantity per call), the adjust calls issued,
and the notifications posted. -/
structure Trace where
  checks : List (Nat × Rat)
  adjusts : List AdjustCall
  notifs : List Notification
deriving Repr, DecidableEq

/-- The check loop of process_order (src/order_service/main.py, lines
128-133): checks lines in order and stops at the first failing check;
returns the checks issued and the final inventory_available flag. -/
def inventoryCheckLoop (env : Env) : List OrderItemRow → List (Nat × Rat) × Bool
  | [] => ([], true)
  | item :: rest =>
    if check_inventory env item.product_id item.quantity then
      let r := inventoryCheckLoop env rest
      ((item.product_id, item.quantity) :: r.1, r.2)
    else
      ([(item.product_id, item.quantity)], false)

/-- The decrement loop of process_order (src/order_service/main.py, lines
146-148): one update_inventory call per line, in line order; the boolean
result of each call is discarded, as in the source. -/
def decrementLoop (env : Env) : List OrderItemRow → List AdjustCall
  | [] => []
  | item :: rest =>
    let callAndOk := update_inventory env item.product_id item.quantity
    callAndOk.1 :: decrementLoop env rest

/-- The first-match query on the orders table used throughout the service. -/
def findOrder (orders : List OrderRow) (oid : Nat) : Option OrderRow :=
  orders.find? (fun o => o.id == oid)

/-- Mutation of the loaded order row followed by a commit: the first row with
the given id gets the new status and a refreshed updated-at timestamp. -/
def setOrderStatus : List OrderRow → Nat → String → Nat → List OrderRow
  | [], _, _, _ => []
  | o :: rest, oid, st, now =>
    if o.id == oid then { o with status := st, updated_at := some now } :: rest
    else o :: setOrderStatus rest oid st now

/-- The order-items query of process_order: all lines of the given order. -/
def orderItemsOf (db : OrderDb) (oid : Nat) : List OrderItemRow :=
  db.items.filter (fun i => i.order_id == oid)

/-- process_order (src/order_service/main.py, lines 115-157): reloads the
order and its lines, checks inventory line by line with short-circuit, and
either marks the order failed (no decrements) or issues one decrement per
line and marks it processed, posting one status notification either way. -/
def process_order (env : Env) (now : Nat) (order_id : Nat) (db : OrderDb) :
    OrderDb × Trace :=
  match findOrder db.orders order_id with
  | none => (db, { checks := [], adjusts := [], notifs := [] })
  | some order =>
    let order_items := orderItemsOf db order_id
    let checkRes := inventoryCheckLoop env order_items
    if !checkRes.2 then
      ({ db with orders := setOrderStatus db.orders order_id "failed" now },
       { checks := checkRes.1, adjusts := [],
         notifs := [{ order_id := order.id, status := "failed",
                      recipient := order.customer_email }] })
    else
      ({ db with orders := setOrderStatus db.orders order_id "processed" now },
       { checks := checkRes.1, adjusts := decrementLoop env order_items,
         notifs := [{ order_id := order.id, status := "processed",
                      recipient := order.customer_email }] })

/-- Product payload as consumed by the order service; only the price field of
the product JSON is read (src/order_service/main.py, line 197). -/
structure Product where
  price : Rat
deriving Repr, DecidableEq

/-- One line request of an order-creation request
(src/order_service/schemas.py, OrderItemCreate). -/
structure OrderItemReq where
  product_id : Nat
  quantity : Rat
deriving Repr, DecidableEq

/-- Order-creation request body (src/order_service/schemas.py, OrderCreate). -/
structure OrderCreate where
  customer_name : String
  customer_email : String
  items : List OrderItemReq
deriving Repr, DecidableEq

/-- Outcome of create_order: the created order and its persisted lines, or
the 404 raised when a product id does not resolve, naming that id. -/
inductive CreateResult where
  | created (order : OrderRow) (lines : List OrderItemRow)
  | productNotFound (product_id : Nat)
deriving Repr, DecidableEq

/-- The line-building loop of create_order (src/order_service/main.py, lines
184-199): looks up each product in request order; the first unresolved
product id aborts with that id, otherwise each line records the price
returned by the lookup as its unit price. -/
def buildLines (prod : Nat → Option Product) (oid : Nat) :
    List OrderItemReq → Except Nat (List OrderItemRow)
  | [] => .ok []
  | item :: rest =>
    match prod item.product_id with
    | none => .error item.product_id
    | some product =>
      match buildLines prod oid rest with
      | .error pid => .error pid
      | .ok lines =>
        .ok ({ order_id := oid, product_id := item.product_id,
               quantity := item.quantity,
               unit_price := product.price } :: lines)

/-- create_order (src/order_service/main.py, lines 164-209): persists a
pending order row, then builds its lines; if some product id does not
resolve the order row is deleted again and a 404 naming the id is raised,
otherwise the lines are committed and the pending order is returned. The
fresh primary key assigned by the database is passed in as new_id. -/
def create_order (prod : Nat → Option Product) (new_id : Nat)
    (req : OrderCreate) (db : OrderDb) : OrderDb × CreateResult :=
  let db_order : OrderRow :=
    { id := new_id, customer_name := req.customer_name,
      customer_email := req.customer_email, status := "pending",
      updated_at := none }
  match buildLines prod new_id req.items with
  | .error pid =>
    ({ db with
       orders := (db.orders ++ [db_order]).filter (fun o => !(o.id == new_id)) },
     .productNotFound pid)
  | .ok lines =>
    ({ orders := db.orders ++ [db_order], items := db.items ++ lines },
     .created db_order lines)

/-- The pattern of the status field of OrderStatusUpdate
(src/order_service/schemas.py, lines 31-33): the anchored alternation of the
five allowed status strings. -/
def statusPattern (s : String) : Bool :=
  s == "pending" || s == "processing" || s == "processed" ||
    s == "failed" || s == "delivered"

/-- Validated status-update request body (src/order_service/schemas.py,
OrderStatusUpdate). -/
structure OrderStatusUpdate where
  status : String
deriving Repr, DecidableEq

/-- Request-body validation performed by the framework before the handler
runs: the status string must match the schema pattern. -/
def mkOrderStatusUpdate (s : String) : Option OrderStatusUpdate :=
  if statusPattern s then some { status := s } else none

/-- Outcome of the status-update endpoint: the updated order, a 404, or a
validation rejection of the request body. -/
inductive StatusUpdateResult where
  | ok (order : OrderRow)
  | notFound
  | validationError
deriving Repr, DecidableEq

/-- update_order_status handler (src/order_service/main.py, lines 228-251):
404 when the order id is unknown, otherwise overwrites the status, refreshes
the updated-at timestamp, and schedules one notification carrying the new
status to the customer email. -/
def update_order_status (now : Nat) (order_id : Nat)
    (status_update : OrderStatusUpdate) (db : OrderDb) :
    OrderDb × StatusUpdateResult × List Notification :=
  match findOrder db.orders order_id with
  | none => (db, .notFound, [])
  | some order =>
    ({ db with
       orders := setOrderStatus db.orders order_id status_update.status now },
     .ok { order with status := status_update.status, updated_at := some now },
     [{ order_id := order.id, status := status_update.status,
        recipient := order.customer_email }])

/-- The status-update endpoint including the schema validation step: a body
whose status does not match the pattern is rejected before the handler. -/
def update_order_status_endpoint (now : Nat) (order_id : Nat) (s : String)
    (db : OrderDb) : OrderDb × StatusUpdateResult × List Notification :=
  match mkOrderStatusUpdate s with
  | none => (db, .validationError, [])
  | some upd => update_order_status now order_id upd db

end OrderSvc

namespace InvSvc

/-- Row of the inventory-items table (src/inventory_service/models.py).
The surrogate id and the timestamp columns are never consulted by the
modelled operations and are omitted. -/
structure InvItemRow where
  product_id : Nat
  quantity : Rat
  location : Option String
deriving Repr, DecidableEq

/-- The inventory service database: the inventory-items table. -/
structure InvDb where
  items : List InvItemRow
deriving Repr, DecidableEq

/-- Creation request body (src/inventory_service/schemas.py,
InventoryItemCreate). -/
structure InventoryItemCreate where
  product_id : Nat
  quantity : Rat
  location : Option String
deriving Repr, DecidableEq

/-- Schema validation of InventoryItemCreate: product_id strictly positive,
quantity nonnegative, location at most 100 characters when present. -/
def InventoryItemCreate.validBody (r : InventoryItemCreate) : Bool :=
  decide (0 < r.product_id) && decide (0 ≤ r.quantity) &&
    (match r.location with
     | some l => decide (l.length ≤ 100)
     | none => true)

/-- Update request body (src/inventory_service/schemas.py,
InventoryItemUpdate); a field left none is unset and keeps the stored
value. -/
structure InventoryItemUpdate where
  quantity : Option Rat
  location : Option String
deriving Repr, DecidableEq

/-- Schema validation of InventoryItemUpdate: a provided quantity must be
nonnegative, a provided location at most 100 characters. -/
def InventoryItemUpdate.validBody (u : InventoryItemUpdate) : Bool :=
  (match u.quantity with
   | some q => decide (0 ≤ q)
   | none => true) &&
  (match u.location with
   | some l => decide (l.length ≤ 100)
   | none => true)

/-- Adjustment request body (src/inventory_service/schemas.py,
InventoryAdjustment): a signed amount and the allow_negative flag. -/
structure InventoryAdjustment where
  amount : Rat
  allow_negative : Bool
deriving Repr, DecidableEq

/-- The first-match query on the inventory table by product id. -/
def findItem (items : List InvItemRow) (pid : Nat) : Option InvItemRow :=
  items.find? (fun i => i.product_id == pid)

/-- Mutation of the loaded inventory row followed by a commit: the first row
with the given product id is replaced. -/
def setItem : List InvItemRow → Nat → InvItemRow → List InvItemRow
  | [], _, _ => []
  | i :: rest, pid, item1 =>
    if i.product_id == pid then item1 :: rest
    else i :: setItem rest pid item1

/-- Outcome of an inventory endpoint: the returned row, a 404 for a missing
product or missing inventory row, or the 400 raised by adjust. -/
inductive InvResp where
  | ok (item : InvItemRow)
  | productNotFound
  | itemNotFound
  | badRequest
deriving Repr, DecidableEq

/-- create_inventory_item (src/inventory_service/main.py, lines 81-121):
404 when the product service does not know the product id; otherwise the
existing row gets the requested quantity and location, or a new row is
inserted. -/
def create_inventory_item (product_exists : Nat → Bool)
    (item : InventoryItemCreate) (db : InvDb) : InvDb × InvResp :=
  if !product_exists item.product_id then (db, .productNotFound)
  else
    match findItem db.items item.product_id with
    | some db_item =>
      let item1 := { db_item with
                     quantity := item.quantity, location := item.location }
      ({ items := setItem db.items item.product_id item1 }, .ok item1)
    | none =>
      let item1 : InvItemRow :=
        { product_id := item.product_id, quantity := item.quantity,
          location := item.location }
      ({ items := db.items ++ [item1] }, .ok item1)

/-- update_inventory_item (src/inventory_service/main.py, lines 142-177):
404 when the product or the inventory row is missing; otherwise each field
set in the request overwrites the stored one. -/
def update_inventory_item (product_exists : Nat → Bool) (product_id : Nat)
    (item : InventoryItemUpdate) (db : InvDb) : InvDb × InvResp :=
  if !product_exists product_id then (db, .productNotFound)
  else
    match findItem db.items product_id with
    | none => (db, .itemNotFound)
    | some db_item =>
      let item1 := { db_item with
        quantity := match item.quantity with
                    | some q => q
                    | none => db_item.quantity,
        location := match item.location with
                    | some l => some l
                    | none => db_item.location }
      ({ items := setItem db.items product_id item1 }, .ok item1)

/-- adjust_inventory (src/inventory_service/main.py, lines 179-214): 404 when
the inventory row is missing; computes the new quantity as stored quantity
plus the signed amount; raises 400 and leaves the row unchanged when the new
quantity is negative and allow_negative is off, otherwise stores it. -/
def adjust_inventory (product_id : Nat) (adjustment : InventoryAdjustment)
    (db : InvDb) : InvDb × InvResp :=
  match findItem db.items product_id with
  | none => (db, .itemNotFound)
  | some db_item =>
    let new_quantity := db_item.quantity + adjustment.amount
    if decide (new_quantity < 0) && !adjustment.allow_negative then
      (db, .badRequest)
    else
      let item1 := { db_item with quantity := new_quantity }
      ({ items := setItem db.items product_id item1 }, .ok item1)

/-- One inventory mutation, for stating the nonnegativity invariant over
all three mutating endpoints at once. -/
inductive InvOp where
  | createItem (product_exists : Nat → Bool) (req : InventoryItemCreate)
  | updateItem (product_exists : Nat → Bool) (pid : Nat)
      (req : InventoryItemUpdate)
  | adjustItem (pid : Nat) (adj : InventoryAdjustment)

/-- An operation is admissible when its body passes schema validation and,
for an adjustment, negative results are not explicitly allowed. -/
def InvOp.validOp : InvOp → Bool
  | .createItem _ r => r.validBody
  | .updateItem _ _ u => u.validBody
  | .adjustItem _ a => !a.allow_negative

/-- Runs one inventory mutation against the database. -/
def InvOp.applyOp : InvOp → InvDb → InvDb × InvResp
  | .createItem pe r, db => create_inventory_item pe r db
  | .updateItem pe pid u, db => update_inventory_item pe pid u db
  | .adjustItem pid a, db => adjust_inventory pid a db

/-- Every stored quantity is nonnegative. -/
def InvNonneg (db : InvDb) : Prop := ∀ i ∈ db.items, 0 ≤ i.quantity

end InvSvc

namespace OrderSvc

theorem inventoryCheckLoop_all_pass (env : Env) (l : List OrderItemRow)
    (h : ∀ i ∈ l, check_inventory env i.product_id i.quantity = true) :
    inventoryCheckLoop env l =
      (l.map (fun i => (i.product_id, i.quantity)), true) := by
  induction l with
  | nil => rfl
  | cons a rest ih =>
    have ha := h a (List.mem_cons_self a rest)
    have ihr := ih (fun i hi => h i (List.mem_cons_of_mem a hi))
    simp [inventoryCheckLoop, ha, ihr]

theorem inventoryCheckLoop_first_fail (env : Env) (pre : List OrderItemRow)
    (bad : OrderItemRow) (rest : List OrderItemRow)
    (hpre : ∀ i ∈ pre, check_inventory env i.product_id i.quantity = true)
    (hbad : check_inventory env bad.product_id bad.quantity = false) :
    inventoryCheckLoop env (pre ++ bad :: rest) =
      (pre.map (fun i => (i.product_id, i.quantity)) ++
        [(bad.product_id, bad.quantity)], false) := by
  induction pre with
  | nil => simp [inventoryCheckLoop, hbad]
  | cons a pre ih =>
    have ha := hpre a (List.mem_cons_self a pre)
    have ihr := ih (fun i hi => hpre i (List.mem_cons_of_mem a hi))
    simp [inventoryCheckLoop, ha, ihr]

theorem decrementLoop_eq_map (env : Env) (l : List OrderItemRow) :
    decrementLoop env l =
      l.map (fun i => { product_id := i.product_id, amount := -i.quantity,
                        allow_negative := false }) := by
  induction l with
  | nil => rfl
  | cons a rest ih => simp [decrementLoop, update_inventory, ih]

theorem findOrder_setOrderStatus (orders : List OrderRow) (oid : Nat)
    (st : String) (now : Nat) (o : OrderRow)
    (h : findOrder orders oid = some o) :
    findOrder (setOrderStatus orders oid st now) oid =
      some { o with status := st, updated_at := some now } := by
  induction orders with
  | nil => simp [findOrder] at h
  | cons a rest ih =>
    cases hid : (a.id == oid) with
    | true =>
      have h1 : a = o := by
        simpa [findOrder, List.find?, hid] using h
      subst h1
      simp [setOrderStatus, hid, findOrder, List.find?]
    | false =>
      have h2 : findOrder rest oid = some o := by
        simpa [findOrder, List.find?, hid] using h
      simp only [setOrderStatus, hid, cond_false, Bool.false_eq_true,
        if_false]
      simpa [findOrder, List.find?, hid] using ih h2

/-- C1: an order all of whose lines pass the inventory check is marked
processed with a refreshed updated-at timestamp, one decrement call per line
is issued with a negative amount equal to the line quantity, and exactly one
processed notification goes to the customer email. -/
theorem C1_fulfillment_all_pass (env : Env) (now order_id : Nat)
    (db : OrderDb) (order : OrderRow)
    (hfind : findOrder db.orders order_id = some order)
    (hall : ∀ i ∈ orderItemsOf db order_id,
      check_inventory env i.product_id i.quantity = true) :
    findOrder (process_order env now order_id db).1.orders order_id =
      some { order with status := "processed", updated_at := some now } ∧
    (process_order env now order_id db).2.adjusts =
      (orderItemsOf db order_id).map
        (fun i => { product_id := i.product_id, amount := -i.quantity,
                    allow_negative := false }) ∧
    (process_order env now order_id db).2.notifs =
      [{ order_id := order.id, status := "processed",
         recipient := order.customer_email }] := by
  have hloop := inventoryCheckLoop_all_pass env (orderItemsOf db order_id) hall
  have hset := findOrder_setOrderStatus db.orders order_id "processed" now
    order hfind
  simp [process_order, hfind, hloop, decrementLoop_eq_map, hset]

/-- C2: an order whose inventory check first fails at some line is marked
failed with a refreshed updated-at timestamp, zero decrement calls are
issued, no line after the failing one is checked, and exactly one failed
notification goes to the customer email. -/
theorem C2_fulfillment_first_fail (env : Env) (now order_id : Nat)
    (db : OrderDb) (order : OrderRow) (pre : List OrderItemRow)
    (bad : OrderItemRow) (rest : List OrderItemRow)
    (hfind : findOrder db.orders order_id = some order)
    (hitems : orderItemsOf db order_id = pre ++ bad :: rest)
    (hpre : ∀ i ∈ pre, check_inventory env i.product_id i.quantity = true)
    (hbad : check_inventory env bad.product_id bad.quantity = false) :
    findOrder (process_order env now order_id db).1.orders order_id =
      some { order with status := "failed", updated_at := some now } ∧
    (process_order env now order_id db).2.adjusts = [] ∧
    (process_order env now order_id db).2.checks =
      pre.map (fun i => (i.product_id, i.quantity)) ++
        [(bad.product_id, bad.quantity)] ∧
    (process_order env now order_id db).2.notifs =
      [{ order_id := order.id, status := "failed",
         recipient := order.customer_email }] := by
  have hloop := inventoryCheckLoop_first_fail env pre bad rest hpre hbad
  have hset := findOrder_setOrderStatus db.orders order_id "failed" now
    order hfind
  simp [process_order, hfind, hitems, hloop, hset]

theorem check_inventory_congr (env1 env2 : Env) (h : env1.inv = env2.inv)
    (pid : Nat) (qty : Rat) :
    check_inventory env1 pid qty = check_inventory env2 pid qty := by
  simp [check_inventory, h]

theorem inventoryCheckLoop_congr (env1 env2 : Env) (h : env1.inv = env2.inv)
    (l : List OrderItemRow) :
    inventoryCheckLoop env1 l = inventoryCheckLoop env2 l := by
  induction l with
  | nil => rfl
  | cons a rest ih =>
    simp [inventoryCheckLoop, check_inventory_congr env1 env2 h, ih]

/-- C6: the decrement phase issues its calls sequentially in line order, and
the outcome of the individual adjust calls does not influence the procedure
at all: two environments agreeing on inventory reads produce identical runs,
every line gets its decrement call, and the order still becomes processed. -/
theorem C6_decrements_not_aborted :
    (∀ env1 env2 : Env, ∀ now oid : Nat, ∀ db : OrderDb,
       env1.inv = env2.inv →
       process_order env1 now oid db = process_order env2 now oid db) ∧
    (∀ env : Env, ∀ now oid : Nat, ∀ db : OrderDb, ∀ order : OrderRow,
       findOrder db.orders oid = some order →
       (∀ i ∈ orderItemsOf db oid,
         check_inventory env i.product_id i.quantity = true) →
       (process_order env now oid db).2.adjusts =
         (orderItemsOf db oid).map
           (fun i => { product_id := i.product_id, amount := -i.quantity,
                       allow_negative := false }) ∧
       findOrder (process_order env now oid db).1.orders oid =
         some { order with status := "processed", updated_at := some now }) := by
  constructor
  · intro env1 env2 now oid db h
    unfold process_order
    cases findOrder db.orders oid with
    | none => rfl
    | some order =>
      simp [inventoryCheckLoop_congr env1 env2 h, decrementLoop_eq_map]
  · intro env now oid db order hfind hall
    have hloop := inventoryCheckLoop_all_pass env (orderItemsOf db oid) hall
    have hset := findOrder_setOrderStatus db.orders oid "processed" now
      order hfind
    simp [process_order, hfind, hloop, decrementLoop_eq_map, hset]

/-- C7: an inventory check whose GET call returns a non-success status or
raises a communication error evaluates to false, treating the line as
insufficient rather than escalating an error. -/
theorem C7_check_inventory_failure_is_false (env : Env) (pid : Nat)
    (qty : Rat)
    (h : env.inv pid = InvGetResp.badStatus ∨
      env.inv pid = InvGetResp.connError) :
    check_inventory env pid qty = false := by
  rcases h with h | h <;> simp [check_inventory, h]

/-- Inventory oracle answering every GET with quantity 100. -/
def invW : Nat → InvGetResp := fun _ => InvGetResp.ok 100

/-- Environment with ample inventory and succeeding adjust calls. -/
def envW : Env := { inv := invW, adjustOk := fun _ _ => true }

/-- Environment with ample inventory and failing adjust calls. -/
def envW2 : Env := { inv := invW, adjustOk := fun _ _ => false }

/-- Environment where product 1 has only quantity 2 on hand. -/
def envF : Env :=
  { inv := fun pid =>
      if pid == 1 then InvGetResp.ok 2 else InvGetResp.ok 100,
    adjustOk := fun _ _ => true }

/-- Environment whose inventory GET always returns a non-200 status. -/
def envBad : Env :=
  { inv := fun _ => InvGetResp.badStatus, adjustOk := fun _ _ => true }

/-- Concrete pending order used to instantiate the theorems. -/
def orderW : OrderRow :=
  { id := 1, customer_name := "Alice",
    customer_email := "alice@example.com", status := "pending",
    updated_at := none }

/-- First concrete order line: product 1, quantity 5. -/
def itemW1 : OrderItemRow :=
  { order_id := 1, product_id := 1, quantity := 5, unit_price := 10 }

/-- Second concrete order line: product 2, quantity 3. -/
def itemW2 : OrderItemRow :=
  { order_id := 1, product_id := 2, quantity := 3, unit_price := 20 }

/-- Concrete database holding the order and its two lines. -/
def dbW : OrderDb := { orders := [orderW], items := [itemW1, itemW2] }

theorem C1_witness :
    findOrder (process_order envW 7 1 dbW).1.orders 1 =
      some { orderW with status := "processed", updated_at := some 7 } ∧
    (process_order envW 7 1 dbW).2.adjusts =
      (orderItemsOf dbW 1).map
        (fun i => { product_id := i.product_id, amount := -i.quantity,
                    allow_negative := false }) ∧
    (process_order envW 7 1 dbW).2.notifs =
      [{ order_id := orderW.id, status := "processed",
         recipient := orderW.customer_email }] :=
  C1_fulfillment_all_pass envW 7 1 dbW orderW (by decide) (by decide)

theorem C2_witness :
    findOrder (process_order envF 7 1 dbW).1.orders 1 =
      some { orderW with status := "failed", updated_at := some 7 } ∧
    (process_order envF 7 1 dbW).2.adjusts = [] ∧
    (process_order envF 7 1 dbW).2.checks =
      ([] : List OrderItemRow).map (fun i => (i.product_id, i.quantity)) ++
        [(itemW1.product_id, itemW1.quantity)] ∧
    (process_order envF 7 1 dbW).2.notifs =
      [{ order_id := orderW.id, status := "failed",
         recipient := orderW.customer_email }] :=
  C2_fulfillment_first_fail envF 7 1 dbW orderW [] itemW1 [itemW2]
    (by decide) (by decide) (by decide) (by decide)

theorem C6_witness :
    process_order envW 7 1 dbW = process_order envW2 7 1 dbW ∧
    ((process_order envW 7 1 dbW).2.adjusts =
      (orderItemsOf dbW 1).map
        (fun i => { product_id := i.product_id, amount := -i.quantity,
                    allow_negative := false }) ∧
     findOrder (process_order envW 7 1 dbW).1.orders 1 =
      some { orderW with status := "processed", updated_at := some 7 }) :=
  ⟨C6_decrements_not_aborted.1 envW envW2 7 1 dbW rfl,
   C6_decrements_not_aborted.2 envW 7 1 dbW orderW (by decide) (by decide)⟩

theorem C7_witness :
    check_inventory envBad 1 5 = false :=
  C7_check_inventory_failure_is_false envBad 1 5 (Or.inl rfl)

theorem buildLines_first_missing (prod : Nat → Option Product) (oid : Nat)
    (pre : List OrderItemReq) (bad : OrderItemReq) (rest : List OrderItemReq)
    (hpre : ∀ it ∈ pre, (prod it.product_id).isSome)
    (hbad : prod bad.product_id = none) :
    buildLines prod oid (pre ++ bad :: rest) =
      Except.error bad.product_id := by
  induction pre with
  | nil => simp [buildLines, hbad]
  | cons a pre ih =>
    have ha := hpre a (List.mem_cons_self a pre)
    obtain ⟨p, hp⟩ := Option.isSome_iff_exists.mp ha
    have ihr := ih (fun it hit => hpre it (List.mem_cons_of_mem a hit))
    simp [buildLines, hp, ihr]

theorem buildLines_all_resolve (prod : Nat → Option Product) (oid : Nat)
    (P : OrderItemReq → Product) (l : List OrderItemReq)
    (hall : ∀ it ∈ l, prod it.product_id = some (P it)) :
    buildLines prod oid l = Except.ok (l.map (fun it =>
      { order_id := oid, product_id := it.product_id,
        quantity := it.quantity, unit_price := (P it).price })) := by
  induction l with
  | nil => rfl
  | cons a rest ih =>
    have ha := hall a (List.mem_cons_self a rest)
    have ihr := ih (fun it hit => hall it (List.mem_cons_of_mem a hit))
    simp [buildLines, ha, ihr]

theorem filter_out_fresh_order (orders : List OrderRow) (new_id : Nat)
    (o1 : OrderRow) (ho1 : o1.id = new_id)
    (hfresh : ∀ o ∈ orders, o.id ≠ new_id) :
    (orders ++ [o1]).filter (fun o => !(o.id == new_id)) = orders := by
  rw [List.filter_append]
  have h1 : [o1].filter (fun o => !(o.id == new_id)) = [] := by
    simp [List.filter, ho1]
  have h2 : orders.filter (fun o => !(o.id == new_id)) = orders :=
    List.filter_eq_self.mpr (fun o ho => by simp [hfresh o ho])
  rw [h1, h2, List.append_nil]

/-- C3: an order-creation request containing a product id that does not
resolve fails with a not-found error naming the first such id, and leaves
the database as it was: the partially created order row is deleted. -/
theorem C3_create_order_aborts (prod : Nat → Option Product) (new_id : Nat)
    (req : OrderCreate) (db : OrderDb) (pre : List OrderItemReq)
    (bad : OrderItemReq) (rest : List OrderItemReq)
    (hsplit : req.items = pre ++ bad :: rest)
    (hpre : ∀ it ∈ pre, (prod it.product_id).isSome)
    (hbad : prod bad.product_id = none)
    (hfresh : ∀ o ∈ db.orders, o.id ≠ new_id) :
    (create_order prod new_id req db).1.orders = db.orders ∧
    (create_order prod new_id req db).2 =
      CreateResult.productNotFound bad.product_id := by
  have hb := buildLines_first_missing prod new_id pre bad rest hpre hbad
  have hfil := filter_out_fresh_order db.orders new_id
    { id := new_id, customer_name := req.customer_name,
      customer_email := req.customer_email, status := "pending",
      updated_at := none } rfl hfresh
  simp [create_order, hsplit, hb, hfil]

/-- C4: an order-creation request all of whose product ids resolve persists
exactly one pending order row and one line per request item, each line
recording the looked-up price as its unit price, and returns the pending
order with those lines. -/
theorem C4_create_order_success (prod : Nat → Option Product) (new_id : Nat)
    (req : OrderCreate) (db : OrderDb) (P : OrderItemReq → Product)
    (hall : ∀ it ∈ req.items, prod it.product_id = some (P it)) :
    create_order prod new_id req db =
      ({ orders := db.orders ++
          [{ id := new_id, customer_name := req.customer_name,
             customer_email := req.customer_email, status := "pending",
             updated_at := none }],
         items := db.items ++ req.items.map (fun it =>
          { order_id := new_id, product_id := it.product_id,
            quantity := it.quantity, unit_price := (P it).price }) },
       CreateResult.created
         { id := new_id, customer_name := req.customer_name,
           customer_email := req.customer_email, status := "pending",
           updated_at := none }
         (req.items.map (fun it =>
          { order_id := new_id, product_id := it.product_id,
            quantity := it.quantity, unit_price := (P it).price }))) := by
  have hb := buildLines_all_resolve prod new_id P req.items hall
  simp [create_order, hb]

/-- Product oracle knowing products 1 (price 10) and 2 (price 20). -/
def prodW : Nat → Option Product :=
  fun pid =>
    if pid == 1 then some { price := 10 }
    else if pid == 2 then some { price := 20 }
    else none

/-- Price function matching prodW on the witness request lines. -/
def PW : OrderItemReq → Product :=
  fun it => if it.product_id == 1 then { price := 10 } else { price := 20 }

/-- Creation request whose two lines both resolve. -/
def reqW : OrderCreate :=
  { customer_name := "Alice", customer_email := "alice@example.com",
    items := [{ product_id := 1, quantity := 5 },
              { product_id := 2, quantity := 3 }] }

/-- Creation request whose second line names the unknown product 3. -/
def reqBad : OrderCreate :=
  { customer_name := "Bob", customer_email := "bob@example.com",
    items := [{ product_id := 1, quantity := 5 },
              { product_id := 3, quantity := 1 }] }

theorem C3_witness :
    (create_order prodW 2 reqBad { orders := [], items := [] }).1.orders =
      ({ orders := [], items := [] } : OrderDb).orders ∧
    (create_order prodW 2 reqBad { orders := [], items := [] }).2 =
      CreateResult.productNotFound 3 :=
  C3_create_order_aborts prodW 2 reqBad { orders := [], items := [] }
    [{ product_id := 1, quantity := 5 }] { product_id := 3, quantity := 1 }
    [] (by decide) (by decide) (by decide) (by decide)

theorem C4_witness :
    create_order prodW 1 reqW { orders := [], items := [] } =
      ({ orders := [] ++
          [{ id := 1, customer_name := reqW.customer_name,
             customer_email := reqW.customer_email, status := "pending",
             updated_at := none }],
         items := [] ++ reqW.items.map (fun it =>
          { order_id := 1, product_id := it.product_id,
            quantity := it.quantity, unit_price := (PW it).price }) },
       CreateResult.created
         { id := 1, customer_name := reqW.customer_name,
           customer_email := reqW.customer_email, status := "pending",
           updated_at := none }
         (reqW.items.map (fun it =>
          { order_id := 1, product_id := it.product_id,
            quantity := it.quantity, unit_price := (PW it).price }))) :=
  C4_create_order_success prodW 1 reqW { orders := [], items := [] } PW
    (by decide)

/-- C5 counterexample: the claim says the status-update endpoint accepts any
status string, but the schema pattern rejects the string "shipped": the
request fails validation and the stored status stays "pending". -/
theorem C5_counterexample :
    update_order_status_endpoint 7 1 "shipped" dbW =
      (dbW, StatusUpdateResult.validationError, []) ∧
    ¬ (findOrder (update_order_status_endpoint 7 1 "shipped" dbW).1.orders
        1).map OrderRow.status = some "shipped" := by
  constructor
  · decide
  · decide

/-- C5 (amended): for every existing order id and every status string
matching the schema pattern, the endpoint writes that status with no
transition validation against the current status. -/
theorem C5_amended_no_state_machine (now oid : Nat) (s : String)
    (db : OrderDb) (order : OrderRow)
    (hs : statusPattern s = true)
    (hfind : findOrder db.orders oid = some order) :
    findOrder (update_order_status_endpoint now oid s db).1.orders oid =
      some { order with status := s, updated_at := some now } := by
  have hset := findOrder_setOrderStatus db.orders oid s now order hfind
  simp [update_order_status_endpoint, mkOrderStatusUpdate, hs,
    update_order_status, hfind, hset]

theorem C5_amended_witness :
    findOrder (update_order_status_endpoint 11 1 "processing" dbW).1.orders
      1 = some { orderW with status := "processing", updated_at := some 11 } :=
  C5_amended_no_state_machine 11 1 "processing" dbW orderW (by decide)
    (by decide)

/-- C8: updating the status of an existing order with an accepted status
value overwrites the stored status regardless of the current one, refreshes
the updated-at timestamp, returns the updated order, and dispatches one
notification carrying the new status to the customer email. -/
theorem C8_status_update_overwrites (now oid : Nat) (s : String)
    (db : OrderDb) (order : OrderRow)
    (hs : statusPattern s = true)
    (hfind : findOrder db.orders oid = some order) :
    findOrder (update_order_status_endpoint now oid s db).1.orders oid =
      some { order with status := s, updated_at := some now } ∧
    (update_order_status_endpoint now oid s db).2.1 =
      StatusUpdateResult.ok
        { order with status := s, updated_at := some now } ∧
    (update_order_status_endpoint now oid s db).2.2 =
      [{ order_id := order.id, status := s,
         recipient := order.customer_email }] := by
  have hset := findOrder_setOrderStatus db.orders oid s now order hfind
  simp [update_order_status_endpoint, mkOrderStatusUpdate, hs,
    update_order_status, hfind, hset]

theorem C8_witness :
    findOrder (update_order_status_endpoint 9 1 "delivered" dbW).1.orders
      1 = some { orderW with status := "delivered", updated_at := some 9 } ∧
    (update_order_status_endpoint 9 1 "delivered" dbW).2.1 =
      StatusUpdateResult.ok
        { orderW with status := "delivered", updated_at := some 9 } ∧
    (update_order_status_endpoint 9 1 "delivered" dbW).2.2 =
      [{ order_id := orderW.id, status := "delivered",
         recipient := orderW.customer_email }] :=
  C8_status_update_overwrites 9 1 "delivered" dbW orderW (by decide)
    (by decide)

/-- C9: updating the status of an order id absent from storage fails with a
not-found error and has no side effects: the database is unchanged and no
notification is dispatched. -/
theorem C9_status_update_not_found (now oid : Nat)
    (upd : OrderStatusUpdate) (db : OrderDb)
    (hnone : findOrder db.orders oid = none) :
    update_order_status now oid upd db =
      (db, StatusUpdateResult.notFound, []) := by
  simp [update_order_status, hnone]

theorem C9_witness :
    update_order_status 9 2 { status := "processed" } dbW =
      (dbW, StatusUpdateResult.notFound, []) :=
  C9_status_update_not_found 9 2 { status := "processed" } dbW (by decide)

end OrderSvc

namespace InvSvc

theorem mem_setItem (items : List InvItemRow) (pid : Nat) (x a : InvItemRow)
    (h : a ∈ setItem items pid x) : a = x ∨ a ∈ items := by
  induction items with
  | nil => simp [setItem] at h
  | cons i rest ih =>
    cases hid : (i.product_id == pid) with
    | true =>
      simp only [setItem, hid, if_true] at h
      rcases List.mem_cons.mp h with h1 | h1
      · exact Or.inl h1
      · exact Or.inr (List.mem_cons_of_mem i h1)
    | false =>
      simp only [setItem, hid, Bool.false_eq_true, if_false] at h
      rcases List.mem_cons.mp h with h1 | h1
      · exact Or.inr (h1 ▸ List.mem_cons_self i rest)
      · rcases ih h1 with h2 | h2
        · exact Or.inl h2
        · exact Or.inr (List.mem_cons_of_mem i h2)

theorem findItem_setItem (items : List InvItemRow) (pid : Nat)
    (x : InvItemRow) (hx : x.product_id = pid) (item : InvItemRow)
    (h : findItem items pid = some item) :
    findItem (setItem items pid x) pid = some x := by
  induction items with
  | nil => simp [findItem] at h
  | cons i rest ih =>
    cases hid : (i.product_id == pid) with
    | true => simp [setItem, hid, findItem, List.find?, hx]
    | false =>
      have h2 : findItem rest pid = some item := by
        simpa [findItem, List.find?, hid] using h
      simp only [setItem, hid, Bool.false_eq_true, if_false]
      simpa [findItem, List.find?, hid] using ih h2

theorem nonneg_setItem (items : List InvItemRow) (pid : Nat)
    (x : InvItemRow) (hall : ∀ i ∈ items, 0 ≤ i.quantity)
    (hx : 0 ≤ x.quantity) : ∀ i ∈ setItem items pid x, 0 ≤ i.quantity := by
  intro a ha
  rcases mem_setItem items pid x a ha with h | h
  · exact h ▸ hx
  · exact hall a h

theorem validBody_create_quantity (r : InventoryItemCreate)
    (h : r.validBody = true) : 0 ≤ r.quantity := by
  unfold InventoryItemCreate.validBody at h
  simp only [Bool.and_eq_true, decide_eq_true_eq] at h
  exact h.1.2

theorem validBody_update_quantity (u : InventoryItemUpdate) (q : Rat)
    (h : u.validBody = true) (hq : u.quantity = some q) : 0 ≤ q := by
  unfold InventoryItemUpdate.validBody at h
  rw [hq] at h
  simp only [Bool.and_eq_true, decide_eq_true_eq] at h
  exact h.1

/-- C10: from a state with all stored quantities nonnegative, every
validated inventory mutation with negative results disallowed preserves
nonnegativity; an adjustment whose new quantity would be negative fails
with a client error leaving the store unchanged, otherwise the adjustment
stores the old quantity plus the signed amount. -/
theorem C10_inventory_nonneg :
    (∀ op : InvOp, ∀ db : InvDb, InvNonneg db → op.validOp = true →
       InvNonneg (op.applyOp db).1) ∧
    (∀ pid : Nat, ∀ adj : InventoryAdjustment, ∀ db : InvDb,
       ∀ item : InvItemRow,
       findItem db.items pid = some item → adj.allow_negative = false →
       (item.quantity + adj.amount < 0 →
          adjust_inventory pid adj db = (db, InvResp.badRequest)) ∧
       (0 ≤ item.quantity + adj.amount →
          adjust_inventory pid adj db =
            ({ items := setItem db.items pid
                { item with quantity := item.quantity + adj.amount } },
             InvResp.ok
               { item with quantity := item.quantity + adj.amount }) ∧
          findItem (adjust_inventory pid adj db).1.items pid =
            some { item with
                   quantity := item.quantity + adj.amount })) := by
  constructor
  · intro op db hnn hval
    cases op with
    | createItem pe r =>
      have hq : 0 ≤ r.quantity := validBody_create_quantity r hval
      simp only [InvOp.applyOp, create_inventory_item]
      cases hpe : pe r.product_id with
      | false => simpa using hnn
      | true =>
        simp only [hpe, Bool.not_true, Bool.false_eq_true, if_false]
        cases hfi : findItem db.items r.product_id with
        | some db_item =>
          simp only [hfi]
          exact nonneg_setItem db.items r.product_id _ hnn hq
        | none =>
          simp only [hfi]
          intro i hi
          rcases List.mem_append.mp hi with h | h
          · exact hnn i h
          · rw [List.mem_singleton.mp h]
            exact hq
    | updateItem pe pid u =>
      simp only [InvOp.applyOp, update_inventory_item]
      cases hpe : pe pid with
      | false => simpa using hnn
      | true =>
        simp only [hpe, Bool.not_true, Bool.false_eq_true, if_false]
        cases hfi : findItem db.items pid with
        | none => simpa [hfi] using hnn
        | some db_item =>
          simp only [hfi]
          have hdb : 0 ≤ db_item.quantity :=
            hnn db_item (List.mem_of_find?_eq_some hfi)
          apply nonneg_setItem db.items pid _ hnn
          cases hqu : u.quantity with
          | none => simpa [hqu] using hdb
          | some q =>
            have := validBody_update_quantity u q hval hqu
            simpa [hqu] using this
    | adjustItem pid a =>
      have hneg : a.allow_negative = false := by
        simpa [InvOp.validOp] using hval
      simp only [InvOp.applyOp, adjust_inventory]
      cases hfi : findItem db.items pid with
      | none => simpa [hfi] using hnn
      | some db_item =>
        simp only [hfi, hneg, Bool.not_false, Bool.and_true]
        cases hlt : decide (db_item.quantity + a.amount < 0) with
        | true => simpa using hnn
        | false =>
          have hge : 0 ≤ db_item.quantity + a.amount := by
            have := of_decide_eq_false hlt
            exact le_of_not_lt this
          simp only [Bool.false_eq_true, if_false]
          exact nonneg_setItem db.items pid _ hnn hge
  · intro pid adj db item hfind hneg
    have hlo : (decide (item.quantity + adj.amount < 0) &&
        !adj.allow_negative) = decide (item.quantity + adj.amount < 0) := by
      rw [hneg]
      simp
    constructor
    · intro hlt
      simp [adjust_inventory, hfind, hlo, hlt, hneg]
    · intro hge
      have hnotlt : ¬ item.quantity + adj.amount < 0 := not_lt.mpr hge
      have heq : adjust_inventory pid adj db =
          ({ items := setItem db.items pid
              { item with quantity := item.quantity + adj.amount } },
           InvResp.ok { item with
                        quantity := item.quantity + adj.amount }) := by
        simp [adjust_inventory, hfind, hlo, hnotlt]
      refine ⟨heq, ?_⟩
      have hpid : item.product_id = pid := by
        have := List.find?_some hfind
        simpa using this
      rw [heq]
      exact findItem_setItem db.items pid _ hpid item hfind

/-- Concrete inventory database with one row: product 1, quantity 5. -/
def invDbW : InvDb :=
  { items := [{ product_id := 1, quantity := 5,
                location := some "Warehouse A" }] }

/-- Adjustment by minus 7, which would drive product 1 negative. -/
def adjNeg : InventoryAdjustment := { amount := -7, allow_negative := false }

/-- Adjustment by minus 5, which empties product 1 exactly. -/
def adjZero : InventoryAdjustment := { amount := -5, allow_negative := false }

theorem C10_witness :
    InvNonneg ((InvOp.adjustItem 1 adjZero).applyOp invDbW).1 ∧
    adjust_inventory 1 adjNeg invDbW = (invDbW, InvResp.badRequest) :=
  ⟨C10_inventory_nonneg.1 (InvOp.adjustItem 1 adjZero) invDbW
      (by unfold InvNonneg; decide) (by decide),
   (C10_inventory_nonneg.2 1 adjNeg invDbW
      { product_id := 1, quantity := 5, location := some "Warehouse A" }
      (by decide) (by decide)).1 (by norm_num [adjNeg])⟩

end InvSvc
